import Mathlib

/-!
Verification development for `utils/hash_utils.py` of the autollm repository:
the content fingerprinter `get_md5` and the change-detection routine
`check_for_changes`.

Modelling conventions:
* file bytes are `List Nat` (each entry a byte value);
* the filesystem is a partial map `String → Option Bytes` (`none` = the file
  cannot be opened/read, in which case Python raises an `IOError`-kind error);
* Python exceptions are modelled with `Except PyError`;
* `hashlib.md5` is modelled by a concrete MD5 implementation over `Nat`
  arithmetic mod 2^32; a hasher object is modelled by the byte stream absorbed
  so far (per the hashlib contract a sequence of `update` calls is equivalent
  to a single `update` of the concatenation), and `hexdigest` applies the MD5
  compression to the absorbed stream.  The digest is encoded as a `Nat`
  (an injective encoding of the 16 digest bytes), so digest equality in the
  model coincides with hex-string equality in Python.
-/

namespace AutoLLM

/-- A byte string: list of byte values. -/
abbrev Bytes := List Nat

/-! ### MD5 (model of Python `hashlib.md5`) -/

/-- Addition of 32-bit words, wrapping mod 2^32. -/
def wadd (a b : Nat) : Nat := (a + b) % 4294967296

/-- Bitwise complement of a 32-bit word. -/
def wnot (a : Nat) : Nat := 4294967295 - a % 4294967296

/-- Left rotation of a 32-bit word by `s` bits (`0 < s < 32`). -/
def rotl (x s : Nat) : Nat := (x % 4294967296 * 2 ^ s + x % 4294967296 / 2 ^ (32 - s)) % 4294967296

/-- The 64 MD5 round constants `K[i] = floor(2^32 * |sin(i+1)|)`. -/
def md5K : List Nat :=
  [0xd76aa478, 0xe8c7b756, 0x242070db, 0xc1bdceee,
   0xf57c0faf, 0x4787c62a, 0xa8304613, 0xfd469501,
   0x698098d8, 0x8b44f7af, 0xffff5bb1, 0x895cd7be,
   0x6b901122, 0xfd987193, 0xa679438e, 0x49b40821,
   0xf61e2562, 0xc040b340, 0x265e5a51, 0xe9b6c7aa,
   0xd62f105d, 0x02441453, 0xd8a1e681, 0xe7d3fbc8,
   0x21e1cde6, 0xc33707d6, 0xf4d50d87, 0x455a14ed,
   0xa9e3e905, 0xfcefa3f8, 0x676f02d9, 0x8d2a4c8a,
   0xfffa3942, 0x8771f681, 0x6d9d6122, 0xfde5380c,
   0xa4beea44, 0x4bdecfa9, 0xf6bb4b60, 0xbebfbc70,
   0x289b7ec6, 0xeaa127fa, 0xd4ef3085, 0x04881d05,
   0xd9d4d039, 0xe6db99e5, 0x1fa27cf8, 0xc4ac5665,
   0xf4292244, 0x432aff97, 0xab9423a7, 0xfc93a039,
   0x655b59c3, 0x8f0ccc92, 0xffeff47d, 0x85845dd1,
   0x6fa87e4f, 0xfe2ce6e0, 0xa3014314, 0x4e0811a1,
   0xf7537e82, 0xbd3af235, 0x2ad7d2bb, 0xeb86d391]

/-- The 64 MD5 per-round left-rotation amounts. -/
def md5S : List Nat :=
  [7, 12, 17, 22, 7, 12, 17, 22, 7, 12, 17, 22, 7, 12, 17, 22,
   5, 9, 14, 20, 5, 9, 14, 20, 5, 9, 14, 20, 5, 9, 14, 20,
   4, 11, 16, 23, 4, 11, 16, 23, 4, 11, 16, 23, 4, 11, 16, 23,
   6, 10, 15, 21, 6, 10, 15, 21, 6, 10, 15, 21, 6, 10, 15, 21]

/-- The MD5 internal state: four 32-bit words. -/
structure MD5State where
  a : Nat
  b : Nat
  c : Nat
  d : Nat
deriving DecidableEq, Repr

/-- The MD5 round mixing function (F, G, H, I depending on the round index). -/
def md5F (i b c d : Nat) : Nat :=
  if i < 16 then Nat.lor (Nat.land b c) (Nat.land (wnot b) d)
  else if i < 32 then Nat.lor (Nat.land d b) (Nat.land (wnot d) c)
  else if i < 48 then Nat.xor b (Nat.xor c d)
  else Nat.xor c (Nat.lor b (wnot d))

/-- The MD5 message-word index used in round `i`. -/
def md5G (i : Nat) : Nat :=
  if i < 16 then i
  else if i < 32 then (5 * i + 1) % 16
  else if i < 48 then (3 * i + 5) % 16
  else (7 * i) % 16

/-- One MD5 round on the working state, with message block `m` (16 words). -/
def md5Round (m : List Nat) (st : MD5State) (i : Nat) : MD5State :=
  let f := wadd (wadd (md5F i st.b st.c st.d) st.a) (wadd (md5K.getD i 0) (m.getD (md5G i) 0))
  ⟨st.d, wadd st.b (rotl f (md5S.getD i 0)), st.b, st.c⟩

/-- Process one 512-bit block (`m`: 16 words) and add the result into the state. -/
def md5Block (st : MD5State) (m : List Nat) : MD5State :=
  let r := (List.range 64).foldl (md5Round m) st
  ⟨wadd st.a r.a, wadd st.b r.b, wadd st.c r.c, wadd st.d r.d⟩

/-- Group a byte string into 32-bit words, little-endian. -/
def toWordsLE : Bytes → List Nat
  | b0 :: b1 :: b2 :: b3 :: rest =>
      (b0 + 256 * b1 + 65536 * b2 + 16777216 * b3) :: toWordsLE rest
  | _ => []

/-- A 64-bit value as 8 little-endian bytes. -/
def le64 (n : Nat) : Bytes := (List.range 8).map (fun i => n / 256 ^ i % 256)

/-- MD5 padding: append `0x80`, zero bytes up to 56 mod 64, then the bit length
as a 64-bit little-endian quantity. -/
def md5Pad (msg : Bytes) : Bytes :=
  msg ++ [0x80] ++ List.replicate ((119 - msg.length % 64) % 64) 0
      ++ le64 (8 * msg.length % 2 ^ 64)

/-- Split a list into consecutive chunks of at most `n` elements
(all chunks except possibly the last have exactly `n` elements). -/
def chunksOf {α : Type} (n : Nat) (l : List α) : List (List α) :=
  match l with
  | [] => []
  | x :: xs =>
      if h : n = 0 then []
      else
        have : ((x :: xs).drop n).length < (x :: xs).length := by
          simp only [List.length_drop, List.length_cons]
          omega
        (x :: xs).take n :: chunksOf n ((x :: xs).drop n)
termination_by l.length

/-- The MD5 digest of a byte string, encoded injectively as a `Nat`
(the four state words in digest order). -/
def md5 (msg : Bytes) : Nat :=
  let st := (chunksOf 16 (toWordsLE (md5Pad msg))).foldl md5Block
    ⟨0x67452301, 0xefcdab89, 0x98badcfe, 0x10325476⟩
  st.a + st.b * 2 ^ 32 + st.c * 2 ^ 64 + st.d * 2 ^ 96

/-! ### hashlib hasher objects -/

/-- A `hashlib.md5()` hasher object, modelled by the byte stream absorbed so far. -/
def Hasher := Bytes

/-- `hashlib.md5()`: a fresh hasher has absorbed nothing. -/
def Hasher.init : Hasher := []

/-- `hasher.update(chunk)`: absorb more bytes.  Per the hashlib contract,
repeated updates are equivalent to a single update of the concatenation. -/
def Hasher.update (h : Hasher) (chunk : Bytes) : Hasher :=
  List.append h chunk

/-- `hasher.hexdigest()`: the MD5 digest of everything absorbed so far. -/
def Hasher.hexdigest (h : Hasher) : Nat := md5 h

/-! ### Data model for `check_for_changes` -/

/-- The filesystem: maps a path to the bytes of the file, or `none` when the file
cannot be read (missing or permission denied). -/
abbrev FileSystem := String → Option Bytes

/-- The Python exceptions the embedded code can raise:
`IOError` from `open`/`read` in `get_md5`, and `ValueError` from
`list.remove` when the element is not present. -/
inductive PyError where
  | ioError (path : String)
  | valueError (x : String)
deriving DecidableEq, Repr

/-- A llama-index `Document` as used by `check_for_changes`: its id (`doc.id_`)
and its `metadata["original_file_path"]`.  Paths are modelled as canonical
strings (`str(Path(...))` is the identity on them). -/
structure Document where
  id_ : String
  original_file_path : String
deriving DecidableEq, Repr

/-- Modelled from the spec: one record of the snapshot of the vector store as
surfaced by `BaseVS.get_document_infos` (the `vectorstores.base` module is not
part of the sources at hand).  Per the spec, each stored record carries a
content digest, an original path and a record id. -/
structure VSRecord where
  last_hash : Nat
  original_file_name : String
  document_id : String
deriving DecidableEq, Repr

/-- Modelled from the spec: `BaseVS.get_document_infos` returns the three
parallel sequences `(last_hashes, original_file_names, document_ids)` of the
snapshot of the store, as unpacked at the call site in `check_for_changes`. -/
def get_document_infos (vs : List VSRecord) : List Nat × List String × List String :=
  (vs.map (·.last_hash), vs.map (·.original_file_name), vs.map (·.document_id))

/-! ### `get_md5` -/

/-- Embedding of `get_md5` (hash_utils.py lines 14-28): open the file, feed it
to a fresh hasher in 4096-byte chunks (`iter(lambda: f.read(4096), b"")`), and
return the hex digest.  A file that cannot be opened raises `IOError`. -/
def get_md5 (fs : FileSystem) (file_path : String) : Except PyError Nat :=
  match fs file_path with
  | none => .error (.ioError file_path)
  | some content =>
      .ok (Hasher.hexdigest ((chunksOf 4096 content).foldl Hasher.update Hasher.init))

/-! ### `check_for_changes` -/

/-- Python `list.remove(x)`: remove the first occurrence of `x`, raising
`ValueError` when `x` is not in the list. -/
def listRemove (xs : List String) (x : String) : Except PyError (List String) :=
  match xs with
  | [] => .error (.valueError x)
  | y :: ys => if y = x then .ok ys else Except.map (fun t => y :: t) (listRemove ys x)

/-- The classification step of the loop body (hash_utils.py lines 53-59):
append `doc` to `changed_documents` when its path is not among
`original_file_names` (add), or else when its current hash is not among
`last_hashes` — note: membership in the list of ALL stored hashes, not a
lookup of the hash stored for the path of this document itself (update). -/
def classify_changed (original_file_names : List String) (last_hashes : List Nat)
    (changed_documents : List Document) (doc : Document) (current_hash : Nat) :
    List Document :=
  if doc.original_file_path ∉ original_file_names then changed_documents ++ [doc]
  else if current_hash ∉ last_hashes then changed_documents ++ [doc]
  else changed_documents

/-- The `for doc in documents` loop of `check_for_changes` (lines 52-62): hash
the file of the document, classify it, then `deleted_document_ids.remove(doc.id_)`.
An `IOError` from `get_md5` or a `ValueError` from `remove` aborts the loop. -/
def checkLoop (fs : FileSystem) (last_hashes : List Nat)
    (original_file_names : List String) (documents : List Document)
    (changed_documents : List Document) (deleted_document_ids : List String) :
    Except PyError (List Document × List String) :=
  match documents with
  | [] => .ok (changed_documents, deleted_document_ids)
  | doc :: rest => do
      let current_hash ← get_md5 fs doc.original_file_path
      let changed := classify_changed original_file_names last_hashes
        changed_documents doc current_hash
      let deleted ← listRemove deleted_document_ids doc.id_
      checkLoop fs last_hashes original_file_names rest changed deleted

/-- Embedding of `check_for_changes` (hash_utils.py lines 31-69): unpack the
snapshot, bind `deleted_document_ids = set(document_ids)` — which is
immediately shadowed by the rebinding `deleted_document_ids = []` on the next
line of the source — then run the loop starting from empty `changed_documents`
and empty `deleted_document_ids`, and return the pair. -/
def check_for_changes (fs : FileSystem) (documents : List Document)
    (vs : List VSRecord) : Except PyError (List Document × List String) :=
  let infos := get_document_infos vs
  let last_hashes := infos.1
  let original_file_names := infos.2.1
  let document_ids := infos.2.2
  let _shadowed_deleted_set := document_ids
  checkLoop fs last_hashes original_file_names documents [] []



/-! ### Helper lemmas -/

/-- Folding `Hasher.update` over a list of chunks absorbs their concatenation. -/
theorem foldl_update_eq_flatten (ls : List Bytes) :
    ∀ acc : Bytes, ls.foldl Hasher.update acc = acc ++ ls.flatten := by
  induction ls with
  | nil => intro acc; simp [List.flatten]
  | cons c cs ih =>
      intro acc
      simp only [List.foldl, List.flatten_cons]
      rw [ih]
      simp [Hasher.update, List.append_assoc]

/-- Concatenating the chunks of a list gives back the list (for a positive
chunk size). -/
theorem chunksOf_flatten {α : Type} (n : Nat) (hn : n ≠ 0) (l : List α) :
    (chunksOf n l).flatten = l := by
  generalize hk : l.length = k
  induction k using Nat.strong_induction_on generalizing l with
  | _ k ih =>
    match l, hk with
    | [], _ => simp [chunksOf]
    | x :: xs, hk =>
      rw [chunksOf, dif_neg hn]
      simp only [List.flatten_cons]
      rw [ih (((x :: xs).drop n).length) ?_ _ rfl]
      · exact List.take_append_drop n (x :: xs)
      · subst hk
        simp only [List.length_drop, List.length_cons]
        omega

/-- Every chunk produced by `chunksOf n` is non-empty and has at most `n`
elements. -/
theorem chunksOf_mem_length {α : Type} (n : Nat) (hn : n ≠ 0) :
    ∀ (l c : List α), c ∈ chunksOf n l → 0 < c.length ∧ c.length ≤ n := by
  intro l
  generalize hk : l.length = k
  induction k using Nat.strong_induction_on generalizing l with
  | _ k ih =>
    intro c hc
    match l, hk with
    | [], _ => simp [chunksOf] at hc
    | x :: xs, hk =>
      rw [chunksOf, dif_neg hn] at hc
      rcases List.mem_cons.mp hc with h | h
      · subst h
        refine ⟨?_, ?_⟩
        · simp [List.length_take]
          omega
        · simp [List.length_take]
      · refine ih (((x :: xs).drop n).length) ?_ _ rfl c h
        subst hk
        simp only [List.length_drop, List.length_cons]
        omega

/-- On a readable file, `get_md5` returns the MD5 digest of the whole file
content (the chunked incremental hashing collapses to a single pass). -/
theorem get_md5_of_readable (fs : FileSystem) (p : String) (content : Bytes)
    (h : fs p = some content) : get_md5 fs p = .ok (md5 content) := by
  simp only [get_md5, h]
  rw [foldl_update_eq_flatten, chunksOf_flatten 4096 (by omega) content]
  rfl

/-- The loop of `check_for_changes` only consults the filesystem at the paths
of the documents it iterates over. -/
theorem checkLoop_congr (fs1 fs2 : FileSystem) (lh : List Nat) (ofn : List String) :
    ∀ (docs : List Document) (ch : List Document) (del : List String),
      (∀ d ∈ docs, fs1 d.original_file_path = fs2 d.original_file_path) →
      checkLoop fs1 lh ofn docs ch del = checkLoop fs2 lh ofn docs ch del := by
  intro docs
  induction docs with
  | nil => intro ch del _; rfl
  | cons d rest ih =>
      intro ch del hagree
      have hd : fs1 d.original_file_path = fs2 d.original_file_path :=
        hagree d (List.mem_cons_self d rest)
      unfold checkLoop
      unfold get_md5
      rw [hd]
      cases h2 : fs2 d.original_file_path with
      | none => rfl
      | some content =>
          show Except.bind _ _ = Except.bind _ _
          simp only [Except.bind]
          cases listRemove del d.id_ with
          | error e => rfl
          | ok deleted =>
              exact ih _ _ (fun x hx => hagree x (List.mem_cons_of_mem d hx))

/-- The classification step never appends a document whose current hash equals
the hash stored for a DIFFERENT path: membership of the current hash in the
list of all stored hashes suppresses the update classification. -/
theorem classify_changed_cross_path (p q d : String) (h1 h2 : Nat) :
    classify_changed [p, q] [h1, h2] [] ⟨d, p⟩ h2 = [] := by
  simp [classify_changed]

/-! ### Claim theorems -/

/-- C1 (code bug): on the failing input — empty current document set against a
snapshot holding record `r1` for path `/a.md` — the call returns with an EMPTY
`deleted_document_ids`, even though the path of `r1` matches no current
document, so `r1` is absent from the returned deletion set.  The claim (and
the docstring of `check_for_changes`) requires `r1` to be reported; the code
drops it because `deleted_document_ids = set(document_ids)` is immediately
rebound to the empty list. -/
theorem check_for_changes_deleted_ids_lost :
    check_for_changes (fun _ => none) [] [⟨111, "/a.md", "r1"⟩] = .ok ([], []) ∧
    "r1" ∉ ([] : List String) :=
  ⟨rfl, by simp⟩

/-- C2 (code bug): a current document at `/a.md` whose content digest differs
from the digest stored for `/a.md` but equals the digest stored for `/b.md` is
NOT classified as an update — the code tests `current_hash not in last_hashes`
against the hashes of ALL snapshot entries, not the entry of the matching
path — and in any case the full call raises `ValueError` at
`deleted_document_ids.remove` and returns no plan at all. -/
theorem check_for_changes_update_unreported :
    classify_changed ["/a.md", "/b.md"] [md5 [1, 2, 3], md5 [9, 9]] []
      ⟨"d1", "/a.md"⟩ (md5 [9, 9]) = [] ∧
    check_for_changes
      (fun p => if p = "/a.md" then some [9, 9] else if p = "/b.md" then some [9, 9] else none)
      [⟨"d1", "/a.md"⟩]
      [⟨md5 [1, 2, 3], "/a.md", "r1"⟩, ⟨md5 [9, 9], "/b.md", "r2"⟩]
      = .error (.valueError "d1") :=
  ⟨classify_changed_cross_path "/a.md" "/b.md" "d1" (md5 [1, 2, 3]) (md5 [9, 9]), rfl⟩

/-- C3 (code bug): reconciling a snapshot against a current set that exactly
mirrors it (same single path `/a.md`, same stored digest `md5 [104, 105]` as
the digest of the current file content `[104, 105]`) does not yield an empty
plan: the call raises `ValueError` at `deleted_document_ids.remove` because
the deletion collection was rebound to the empty list before the loop. -/
theorem check_for_changes_noop_run_raises :
    check_for_changes (fun p => if p = "/a.md" then some [104, 105] else none)
      [⟨"d1", "/a.md"⟩] [⟨md5 [104, 105], "/a.md", "r1"⟩]
      = .error (.valueError "d1") := rfl

/-- C4 (code bug): with an empty current document set and a non-empty snapshot
(records `r1` and `r2`), the call returns an EMPTY deletion set instead of the
full-teardown set containing `r1` and `r2`: the snapshot ids collected into
`set(document_ids)` are discarded by the rebinding to the empty list. -/
theorem check_for_changes_empty_docs_no_teardown :
    check_for_changes (fun _ => none) []
      [⟨101, "/a.md", "r1"⟩, ⟨102, "/b.md", "r2"⟩] = .ok ([], []) := rfl

/-- C5 (counterexample): on a current set with two documents sharing the path
`/a.md`, `check_for_changes` fails with the `ValueError` raised by
`deleted_document_ids.remove` — not a `DuplicatePathError`-kind error (the
code has no duplicate-path check at all; `PyError` enumerates every error this
code can raise) — and the identically-shaped duplicate-free input fails with
exactly the same error, so the failure is not a duplicate-path rejection. -/
theorem duplicate_path_error_kind_refuted :
    check_for_changes (fun p => if p = "/a.md" then some [1] else none)
      [⟨"d1", "/a.md"⟩, ⟨"d2", "/a.md"⟩] [] = .error (.valueError "d1") ∧
    check_for_changes (fun p => if p = "/a.md" then some [1] else none)
      [⟨"d1", "/a.md"⟩] [] = .error (.valueError "d1") :=
  ⟨rfl, rfl⟩

/-- C5 (amended): for every input whose current document set contains two
entries with the same `original_path` (and whose first file is readable),
`check_for_changes` does fail and returns no plan — but with the `ValueError`
from removing the first document id from the empty deletion list, a failure
every non-empty input shares, not a duplicate-path-specific error. -/
theorem duplicate_path_input_raises_value_error (fs : FileSystem)
    (vs : List VSRecord) (d1 d2 : Document) (rest : List Document)
    ( _hdup : d1.original_file_path = d2.original_file_path)
    (hr : (fs d1.original_file_path).isSome) :
    check_for_changes fs (d1 :: d2 :: rest) vs = .error (.valueError d1.id_) := by
  obtain ⟨content, hc⟩ := Option.isSome_iff_exists.mp hr
  unfold check_for_changes checkLoop
  rw [get_md5_of_readable fs d1.original_file_path content hc]
  rfl

/-- C5 (witness): the amended theorem applied to a concrete duplicate-path
input. -/
theorem duplicate_path_input_raises_value_error_witness :
    check_for_changes (fun _ => some [5]) [⟨"dA", "/p.md"⟩, ⟨"dB", "/p.md"⟩] []
      = .error (.valueError "dA") :=
  duplicate_path_input_raises_value_error (fun _ => some [5]) []
    ⟨"dA", "/p.md"⟩ ⟨"dB", "/p.md"⟩ [] rfl rfl

/-- C6 (counterexample): a snapshot with a duplicate `record_id` AND a
duplicate `original_path` is not rejected: with an empty current document set
`check_for_changes` returns a reconciliation plan (the pair of empty lists)
instead of failing with a `CorruptSnapshotError`-kind error. -/
theorem corrupt_snapshot_accepted :
    check_for_changes (fun _ => none) []
      [⟨101, "/a.md", "r1"⟩, ⟨101, "/a.md", "r1"⟩] = .ok ([], []) := rfl

/-- C6 (amended): `check_for_changes` performs no snapshot validation
whatsoever: for EVERY snapshot — including ones with duplicate record ids or
duplicate paths — an empty current document set yields the returned plan
`([], [])`. -/
theorem empty_docs_plan_ignores_snapshot_validity (fs : FileSystem)
    (vs : List VSRecord) :
    check_for_changes fs [] vs = .ok ([], []) := rfl

/-- C7 (counterexample): with the SAME current documents and the SAME snapshot,
two different filesystem states produce different results (`ValueError` from
the remove step when the file of the document is readable, `IOError` when it
is not): `check_for_changes` reads the filesystem — it hashes the file of
every document via `get_md5` — so it is not a pure function of its two input
collections alone. -/
theorem reconciler_filesystem_dependence :
    check_for_changes (fun _ => some [1]) [⟨"d1", "/a.md"⟩] [⟨7, "/b.md", "r1"⟩]
      = .error (.valueError "d1") ∧
    check_for_changes (fun _ => none) [⟨"d1", "/a.md"⟩] [⟨7, "/b.md", "r1"⟩]
      = .error (.ioError "/a.md") ∧
    (Except.error (PyError.valueError "d1") : Except PyError (List Document × List String))
      ≠ .error (.ioError "/a.md") :=
  ⟨rfl, rfl, by simp⟩

/-- C7 (amended): `check_for_changes` is a deterministic function of the
current documents, the snapshot, AND the filesystem; its only filesystem
dependence is reading the files at the paths of the given documents, so two
filesystem states agreeing on those paths yield equal results. -/
theorem check_for_changes_deterministic_on_inputs (fs1 fs2 : FileSystem)
    (documents : List Document) (vs : List VSRecord)
    (hagree : ∀ d ∈ documents, fs1 d.original_file_path = fs2 d.original_file_path) :
    check_for_changes fs1 documents vs = check_for_changes fs2 documents vs := by
  unfold check_for_changes
  exact checkLoop_congr fs1 fs2 _ _ documents [] [] hagree

/-- C7 (witness): the amended determinism theorem applied to two concrete
filesystems that agree on the single document path. -/
theorem check_for_changes_deterministic_on_inputs_witness :
    check_for_changes (fun p => if p = "/a.md" then some [1] else none)
      [⟨"d1", "/a.md"⟩] []
      = check_for_changes (fun _ => some [1]) [⟨"d1", "/a.md"⟩] [] :=
  check_for_changes_deterministic_on_inputs _ _ _ _ (by decide)

/-- C8: for every readable file, the incremental computation of `get_md5` over
successive 4096-byte chunks produces exactly the MD5 digest of the entire
content in one pass; every chunk it streams is non-empty and of bounded size
(at most 4096 bytes); and any two reads that yield the same byte sequence —
on any call, any path, any filesystem state — yield the same digest. -/
theorem get_md5_chunked_matches_one_pass (fs : FileSystem) (p : String)
    (content : Bytes) (h : fs p = some content) :
    get_md5 fs p = .ok (md5 content) ∧
    (∀ c ∈ chunksOf 4096 content, 0 < c.length ∧ c.length ≤ 4096) ∧
    (∀ (fs2 : FileSystem) (p2 : String), fs2 p2 = some content →
      get_md5 fs2 p2 = get_md5 fs p) := by
  refine ⟨get_md5_of_readable fs p content h, ?_, ?_⟩
  · intro c hc
    exact chunksOf_mem_length 4096 (by omega) content c hc
  · intro fs2 p2 h2
    rw [get_md5_of_readable fs2 p2 content h2, get_md5_of_readable fs p content h]

/-- C8 (witness): the chunked digest of a concrete readable file equals the
one-pass digest of its content. -/
theorem get_md5_chunked_matches_one_pass_witness :
    get_md5 (fun _ => some [1, 2, 3]) "/doc.md" = .ok (md5 [1, 2, 3]) :=
  (get_md5_chunked_matches_one_pass (fun _ => some [1, 2, 3]) "/doc.md"
    [1, 2, 3] rfl).1

/-- C9: for every path whose file cannot be read, `get_md5` fails with the
`IOError`-kind error, and when `check_for_changes` reaches that file (first
document of the loop) the error propagates out of the call uncaught — no
retry, no swallowing, no digest and no plan are produced. -/
theorem get_md5_unreadable_raises_io_error (fs : FileSystem) (p : String)
    (d : Document) (rest : List Document) (vs : List VSRecord)
    (hp : fs p = none) (hd : d.original_file_path = p) :
    get_md5 fs p = .error (.ioError p) ∧
    check_for_changes fs (d :: rest) vs = .error (.ioError p) := by
  have h1 : get_md5 fs p = .error (.ioError p) := by unfold get_md5; rw [hp]
  refine ⟨h1, ?_⟩
  unfold check_for_changes checkLoop
  rw [hd, h1]
  rfl

/-- C9 (witness): a concrete unreadable path makes `get_md5` raise `IOError`
and the error propagates through `check_for_changes`. -/
theorem get_md5_unreadable_raises_io_error_witness :
    get_md5 (fun _ => none) "/gone.md" = .error (.ioError "/gone.md") ∧
    check_for_changes (fun _ => none) [⟨"d1", "/gone.md"⟩] []
      = .error (.ioError "/gone.md") :=
  get_md5_unreadable_raises_io_error (fun _ => none) "/gone.md"
    ⟨"d1", "/gone.md"⟩ [] [] rfl rfl

/-- C10: for every non-empty documents input whose first file is readable (in
particular when all files are readable), `check_for_changes` raises on the
first loop iteration — `deleted_document_ids` is rebound to the empty list
before the loop, so removing the id of the first document raises `ValueError`
— and never returns a plan; only the empty documents input returns normally,
with an empty changed list and an empty deleted list. -/
theorem check_for_changes_nonempty_always_raises (fs : FileSystem)
    (d : Document) (rest : List Document) (vs : List VSRecord)
    (hd : (fs d.original_file_path).isSome) :
    check_for_changes fs (d :: rest) vs = .error (.valueError d.id_) ∧
    check_for_changes fs [] vs = .ok ([], []) := by
  constructor
  · obtain ⟨content, hc⟩ := Option.isSome_iff_exists.mp hd
    unfold check_for_changes checkLoop
    rw [get_md5_of_readable fs d.original_file_path content hc]
    rfl
  · rfl

/-- C10 (witness): a concrete one-document readable input raises `ValueError`
on its id, and the empty input returns the empty pair. -/
theorem check_for_changes_nonempty_always_raises_witness :
    check_for_changes (fun _ => some []) [⟨"d1", "/a.md"⟩] []
      = .error (.valueError "d1") ∧
    check_for_changes (fun _ => some []) [] [] = .ok ([], []) :=
  check_for_changes_nonempty_always_raises (fun _ => some []) ⟨"d1", "/a.md"⟩ [] [] rfl

end AutoLLM
